import Mathlib

/-!
Verification of the GraphQL product resolver layer
(`saleor/graphql/product/types/products.py`): a shallow embedding of the
resolver functions and the data they touch, followed by theorems about the
resolution contracts (authorization gating, inventory sentinels, pricing
load dependencies, channel-context wrapping).

External collaborators (persistence managers, pricing/inventory services,
thumbnailing, URI building) are passed to the embedded resolvers as
explicit function parameters; batch-loader results are represented as
explicit load requests (the key that would be loaded) so that theorems can
state both what is loaded and what is computed from the loaded values.
-/

namespace Saleor

/-- Two-letter ISO country code (opaque here). -/
abbrev CountryCode := String

/-- A money amount in a currency, as carried by `Money` graph values. -/
structure Money where
  amount : Int
  currency : String
deriving DecidableEq, Repr

/-- Net/gross pair, as carried by `TaxedMoney` graph values. -/
structure TaxedMoney where
  net : Money
  gross : Money
deriving DecidableEq, Repr

/-- A start/stop money pair, as carried by `MoneyRange` graph values. -/
structure MoneyRange where
  start : Money
  stop : Money
deriving DecidableEq, Repr

/-- Net/gross range pair, as carried by `TaxedMoneyRange` graph values. -/
structure TaxedMoneyRange where
  start : TaxedMoney
  stop : TaxedMoney
deriving DecidableEq, Repr

/-- The `Margin` object type: `start = graphene.Int(); stop = graphene.Int()`. -/
structure Margin where
  start : Int
  stop : Int
deriving DecidableEq, Repr

/-- A stock row reachable from a variant (`root.node.stocks`); its inner
fields are irrelevant to the claims, only the row identity matters. -/
structure StockRecord where
  pk : Nat
  quantity : Int
deriving DecidableEq, Repr

/-- A persisted `ProductVariant` record as the resolvers read it.
`quantity_ordered` models the dynamically attached annotation
(present = `some`, absent = `none`, matching
`getattr(root.node, "quantity_ordered", None)`); `digital_content` likewise
models `getattr(root.node, "digital_content", None)` as an optional
opaque id. -/
structure VariantNode where
  pk : Nat
  product_id : Nat
  track_inventory : Bool
  price : Option Money
  cost_price : Option Money
  quantity_ordered : Option Int
  digital_content : Option Nat
  stocks : List StockRecord
deriving DecidableEq, Repr

/-- A persisted `Product` record as the resolvers read it. -/
structure ProductRecord where
  pk : Nat
  category_id : Option Nat
deriving DecidableEq, Repr

/-- A `ProductChannelListing` row: publication state of a product in a
channel. -/
structure ProductChannelListingRecord where
  product_id : Nat
  channel_slug : String
  is_published : Bool
deriving DecidableEq, Repr

/-- A sales channel (only the slug is read by this layer). -/
structure Channel where
  slug : String
deriving DecidableEq, Repr

/-- A collection row loaded by `CollectionsByProductIdLoader` (opaque). -/
structure CollectionNode where
  pk : Nat
deriving DecidableEq, Repr

/-- A discount rule loaded by `DiscountsByDateTimeLoader` (opaque). -/
structure Discount where
  pk : Nat
deriving DecidableEq, Repr

/-- The per-request context the resolvers read (`info.context`):
requesting country, local currency, and the request timestamp used as the
discount-loader key. -/
structure RequestContext where
  country : CountryCode
  currency : Option String
  request_time : Nat
deriving DecidableEq, Repr

/-- The channel-context wrapper `ChannelContext`: a raw record together
with the requesting channel slug. -/
structure ChannelContext (N : Type) where
  node : N
  channel_slug : Option String
deriving DecidableEq, Repr

/-- Django settings consumed by the resolvers. -/
structure Settings where
  MAX_CHECKOUT_LINE_QUANTITY : Nat
deriving DecidableEq, Repr

/-- Python truthiness of an optional string (`if not root.channel_slug`):
false for `None` and for the empty string. -/
def strTruthy : Option String → Bool
  | none => false
  | some s => !s.isEmpty

/-! ## ChannelContextType: default resolution and identity -/

/-- A raw record viewed as a bag of named attributes plus a primary key,
as graphene's default attribute resolver sees it. -/
structure RawRecord (V : Type) where
  pk : Nat
  attrs : List (String × V)

/-- graphene's `get_default_resolver()` applied to a record: field-name
lookup with a default value (`getattr(root, attname, default_value)`). -/
def get_default_resolver {V : Type} (attname : String) (default_value : V)
    (record : RawRecord V) : V :=
  match record.attrs.lookup attname with
  | some v => v
  | none => default_value

/-- `ChannelContextType.resolver_with_context`: delegate the default
resolution to the default resolver applied to the wrapped record
(`root.node`). -/
def resolver_with_context {V : Type} (attname : String) (default_value : V)
    (root : ChannelContext (RawRecord V)) : V :=
  get_default_resolver attname default_value root.node

/-- Modelled from the spec: graphene's field dispatch for a
context-wrapped entity type (the framework code hosting
`Meta.default_resolver` is not part of this file's source) — the per-type
resolver set is consulted first for a field override; a field without an
override falls back to the type's default resolver, which is
`resolver_with_context`. -/
def resolveField {V : Type}
    (overrides : List (String × (ChannelContext (RawRecord V) → V)))
    (attname : String) (default_value : V)
    (root : ChannelContext (RawRecord V)) : V :=
  match overrides.lookup attname with
  | some r => r root
  | none => resolver_with_context attname default_value root

/-- `ChannelContextType.resolve_id`: the identifier of a context-wrapped
entity is the wrapped record's primary key (`root.node.pk`). -/
def ChannelContextType.resolve_id {V : Type}
    (root : ChannelContext (RawRecord V)) : Nat :=
  root.node.pk

/-! ## Authorization gate -/

/-- The errors this layer produces. -/
inductive ResolverError where
  | authorizationError (permission : String)
  | graphQLError (message : String)
deriving DecidableEq, Repr

/-- The requester's capability set (`info.context.user` permissions). -/
structure Requester where
  permissions : List String
deriving DecidableEq, Repr

/-- `ProductPermissions.MANAGE_PRODUCTS`. -/
def MANAGE_PRODUCTS : String := "product.manage_products"

/-- Modelled from the spec: the `permission_required` decorator (defined
in `graphql/decorators.py`, outside this file's source) — before invoking
the wrapped resolver it checks the requester's capability set; lacking the
permission it fails with an authorization error naming the permission,
otherwise it delegates transparently. -/
def permission_required {ρ α : Type} (perm : String) (resolver : ρ → α)
    (requester : Requester) (root : ρ) : Except ResolverError α :=
  if requester.permissions.contains perm then .ok (resolver root)
  else .error (.authorizationError perm)

/-! ## Quantity / availability resolvers -/

/-- The outcome of a resolver that either returns a direct value or hands
back the batch loader's deferred for a key (variant id, optional country). -/
inductive QuantityResolution where
  | value (q : Nat)
  | load (key : Nat × Option CountryCode)
deriving DecidableEq, Repr

/-- `ProductVariant.resolve_quantity_available`: a variant that does not
track inventory yields `settings.MAX_CHECKOUT_LINE_QUANTITY` directly;
otherwise the availability loader is asked for
`(root.node.id, country_code)`. -/
def ProductVariant.resolve_quantity_available (settings : Settings)
    (root : ChannelContext VariantNode) (country_code : Option CountryCode) :
    QuantityResolution :=
  if !root.node.track_inventory then
    .value settings.MAX_CHECKOUT_LINE_QUANTITY
  else
    .load (root.node.pk, country_code)

/-- `ProductVariant.resolve_stock_quantity`: as above but the country key
is the request context's country. -/
def ProductVariant.resolve_stock_quantity (settings : Settings)
    (ctx : RequestContext) (root : ChannelContext VariantNode) :
    QuantityResolution :=
  if !root.node.track_inventory then
    .value settings.MAX_CHECKOUT_LINE_QUANTITY
  else
    .load (root.node.pk, some ctx.country)

/-- The outcome of `resolve_is_available` on a variant: either an
immediate boolean or the availability loader's deferred for
`(variant id, country)` chained with a continuation on the loaded
quantity. -/
inductive AvailabilityResolution where
  | value (b : Bool)
  | loadThen (key : Nat × CountryCode) (cont : Int → Bool)

/-- The keys a resolution asks the availability loader for. -/
def AvailabilityResolution.loads : AvailabilityResolution → List (Nat × CountryCode)
  | .value _ => []
  | .loadThen key _ => [key]

/-- Run a resolution against an environment giving each key's available
quantity. -/
def AvailabilityResolution.run (env : Nat × CountryCode → Int) :
    AvailabilityResolution → Bool
  | .value b => b
  | .loadThen key cont => cont (env key)

/-- `ProductVariant.resolve_is_available`: `True` directly when inventory
is not tracked; otherwise load `(root.node.id, info.context.country)` and
map the quantity through `is_variant_in_stock`
(`available_quantity > 0`). -/
def ProductVariant.resolve_is_available (ctx : RequestContext)
    (root : ChannelContext VariantNode) : AvailabilityResolution :=
  if !root.node.track_inventory then
    .value true
  else
    .loadThen (root.node.pk, ctx.country) (fun available_quantity =>
      decide (available_quantity > 0))

/-! ## Pricing resolvers -/

/-- `VariantPricingInfo` graph object (field-for-field as declared). -/
structure VariantPricingInfo where
  on_sale : Option Bool
  discount : Option TaxedMoney
  discount_local_currency : Option TaxedMoney
  price : Option TaxedMoney
  price_undiscounted : Option TaxedMoney
  price_local_currency : Option TaxedMoney
deriving DecidableEq, Repr

/-- `ProductPricingInfo` graph object (field-for-field as declared). -/
structure ProductPricingInfo where
  on_sale : Option Bool
  discount : Option TaxedMoney
  discount_local_currency : Option TaxedMoney
  price_range : Option TaxedMoneyRange
  price_range_undiscounted : Option TaxedMoneyRange
  price_range_local_currency : Option TaxedMoneyRange
deriving DecidableEq, Repr

/-- The batch-loader keys the pricing resolvers issue. -/
inductive PricingLoadKey where
  | discounts (request_time : Nat)
  | product (id : Nat)
  | channelListing (key : Nat × String)
  | variants (product_id : Nat)
  | collections (product_id : Nat)
deriving DecidableEq, Repr

/-- The values a pricing computation may consume once its loads resolve. -/
structure PricingEnv where
  discounts : List Discount
  product : ProductRecord
  channel_listing : Option ProductChannelListingRecord
  variants : List VariantNode
  collections : List CollectionNode

/-- The outcome of a pricing resolver: either empty (no snapshot, nothing
loaded) or a deferred computation that issues the listed loads and
computes the snapshot only from the loaded environment. -/
inductive PricingResolution (α : Type) where
  | empty
  | deferred (loads : List PricingLoadKey) (compute : PricingEnv → α)

/-- The loads a pricing resolution issues. -/
def PricingResolution.loads {α : Type} : PricingResolution α → List PricingLoadKey
  | .empty => []
  | .deferred ls _ => ls

/-- Run a pricing resolution against a loaded environment: `none` when
empty, otherwise the computed snapshot. -/
def PricingResolution.run {α : Type} (env : PricingEnv) :
    PricingResolution α → Option α
  | .empty => none
  | .deferred _ compute => some (compute env)

/-- `ProductVariant.resolve_pricing`: without a (truthy) channel slug the
resolver returns `None`; otherwise it loads the active discounts, the
parent product, the product's channel listing for the slug and the
product's collections, and once all have resolved computes
`get_variant_availability` (the external pricing aggregator; the
`VariantPricingInfo(**asdict(...))` conversion is folded into the
aggregator parameter). -/
def ProductVariant.resolve_pricing
    (get_variant_availability :
      VariantNode → ProductRecord → Option ProductChannelListingRecord →
      List CollectionNode → List Discount → CountryCode → Option String →
      VariantPricingInfo)
    (ctx : RequestContext) (root : ChannelContext VariantNode) :
    PricingResolution VariantPricingInfo :=
  match root.channel_slug with
  | none => .empty
  | some slug =>
    if slug.isEmpty then .empty
    else
      .deferred
        [ .discounts ctx.request_time,
          .product root.node.product_id,
          .channelListing (root.node.product_id, slug),
          .collections root.node.product_id ]
        (fun env =>
          get_variant_availability root.node env.product env.channel_listing
            env.collections env.discounts ctx.country ctx.currency)

/-- `Product.resolve_pricing`: without a (truthy) channel slug the
resolver returns `None`; otherwise it loads the active discounts, the
product's channel listing for the slug, the product's variants and its
collections, and once all have resolved computes
`get_product_availability` (the external pricing aggregator; the
`ProductPricingInfo(**asdict(...))` conversion is folded into the
aggregator parameter). -/
def Product.resolve_pricing
    (get_product_availability :
      ProductRecord → Option ProductChannelListingRecord → List VariantNode →
      List CollectionNode → List Discount → CountryCode → Option String →
      ProductPricingInfo)
    (ctx : RequestContext) (root : ChannelContext ProductRecord) :
    PricingResolution ProductPricingInfo :=
  match root.channel_slug with
  | none => .empty
  | some slug =>
    if slug.isEmpty then .empty
    else
      .deferred
        [ .discounts ctx.request_time,
          .channelListing (root.node.pk, slug),
          .variants root.node.pk,
          .collections root.node.pk ]
        (fun env =>
          get_product_availability root.node env.channel_listing env.variants
            env.collections env.discounts ctx.country ctx.currency)

/-! ## Product.resolve_is_available -/

/-- The persisted data `Product.resolve_is_available` and
`Category.resolve_products` query directly. -/
structure DB where
  products : List ProductRecord
  listings : List ProductChannelListingRecord
  default_channel : Option Channel
deriving DecidableEq, Repr

/-- `Product.resolve_is_available`: `None` without a (truthy) channel
slug; otherwise `is_visible and in_stock`, where `is_visible` is the
existence of a `ProductChannelListing` row for the product and the slug
and `in_stock` is the external `is_product_in_stock` check at the request
context's country. -/
def Product.resolve_is_available
    (is_product_in_stock : ProductRecord → CountryCode → Bool)
    (db : DB) (ctx : RequestContext) (root : ChannelContext ProductRecord) :
    Option Bool :=
  match root.channel_slug with
  | none => none
  | some slug =>
    if slug.isEmpty then none
    else
      let in_stock := is_product_in_stock root.node ctx.country
      let is_visible := db.listings.any (fun l =>
        l.product_id == root.node.pk && l.channel_slug == slug)
      some (is_visible && in_stock)

/-! ## Category.resolve_products -/

/-- A category together with its subtree of descendant categories, as the
MPTT tree navigation sees it. -/
inductive CategoryTree where
  | node (pk : Nat) (children : List CategoryTree)
deriving Repr

/-- The primary key of the category at the root of the tree. -/
def CategoryTree.pk : CategoryTree → Nat
  | .node p _ => p

mutual

/-- `root.get_descendants(include_self=True)`: the primary keys of the
category and of every category in its subtree. -/
def CategoryTree.descendantsSelf : CategoryTree → List Nat
  | .node p cs => p :: CategoryTree.descendantsSelfList cs

/-- Descendant keys of a list of subtrees. -/
def CategoryTree.descendantsSelfList : List CategoryTree → List Nat
  | [] => []
  | c :: cs => c.descendantsSelf ++ CategoryTree.descendantsSelfList cs

end

/-- Modelled from the spec: `Product.objects.published(channel)` (manager
method defined outside this file's source) — the products having a
published channel listing for the channel slug. -/
def publishedProducts (db : DB) (channel : String) : List ProductRecord :=
  db.products.filter (fun p => db.listings.any (fun l =>
    l.product_id == p.pk && l.channel_slug == channel && l.is_published))

/-- Modelled from the spec: `get_default_channel_or_graphql_error`
(defined in `graphql/channel/utils.py`, outside this file's source) — an
explicit lookup of the configured default channel that fails loudly with a
GraphQL error if none is configured. -/
def get_default_channel_or_graphql_error (db : DB) :
    Except ResolverError Channel :=
  match db.default_channel with
  | some c => .ok c
  | none => .error (.graphQLError "A default channel does not exist.")

/-- A queryset wrapped with the channel slug it was resolved for
(`ChannelQsContext`). -/
structure ChannelQsContext where
  qs : List ProductRecord
  channel_slug : String
deriving DecidableEq, Repr

/-- `Category.resolve_products`: take the category's subtree including
itself; default a `None` channel argument to the configured default
channel (failing loudly when none is configured); keep the published
products of that channel whose category lies in the subtree; wrap the
result with the resolved channel slug. -/
def Category.resolve_products (db : DB) (root : CategoryTree)
    (channel : Option String) : Except ResolverError ChannelQsContext :=
  let tree := root.descendantsSelf
  let resolvedChannel : Except ResolverError String :=
    match channel with
    | none => (get_default_channel_or_graphql_error db).map (fun c => c.slug)
    | some c => .ok c
  resolvedChannel.map (fun channel =>
    let qs := (publishedProducts db channel).filter (fun p =>
      match p.category_id with
      | some c => tree.contains c
      | none => false)
    ⟨qs, channel⟩)

/-! ## ProductImage.resolve_url -/

/-- A stored image file (`root.image`): only its URL is read here. -/
structure ImageFile where
  url : String
deriving DecidableEq, Repr

/-- A persisted `ProductImage` record. -/
structure ProductImageRecord where
  pk : Nat
  image : ImageFile
  alt : String
deriving DecidableEq, Repr

/-- `ProductImage.resolve_url`: with a truthy `size` argument render a
thumbnail URL at that size via the external `get_thumbnail`, otherwise
take the stored image's URL; either way build an absolute URI from the
request (`info.context.build_absolute_uri`). -/
def ProductImage.resolve_url (get_thumbnail : ImageFile → Nat → String)
    (build_absolute_uri : String → String)
    (root : ProductImageRecord) (size : Option Nat) : String :=
  let url :=
    match size with
    | some n => if n ≠ 0 then get_thumbnail root.image n else root.image.url
    | none => root.image.url
  build_absolute_uri url

/-! ## Permission-gated resolvers -/

/-- A handed-back batch-loader deferred, represented by the key the
loader was asked for. -/
structure LoaderRequest (κ : Type) where
  key : κ
deriving DecidableEq, Repr

/-- `ProductVariant.resolve_margin` (gated): the external
`get_margin_for_variant` on the wrapped record. -/
def ProductVariant.resolve_margin
    (get_margin_for_variant : VariantNode → Option Int)
    (requester : Requester) (root : ChannelContext VariantNode) :
    Except ResolverError (Option Int) :=
  permission_required MANAGE_PRODUCTS
    (fun r => get_margin_for_variant r.node) requester root

/-- `ProductVariant.resolve_cost_price` (gated): `root.node.cost_price`. -/
def ProductVariant.resolve_cost_price (requester : Requester)
    (root : ChannelContext VariantNode) :
    Except ResolverError (Option Money) :=
  permission_required MANAGE_PRODUCTS (fun r => r.node.cost_price)
    requester root

/-- `ProductVariant.resolve_price` (gated): `root.node.price`. -/
def ProductVariant.resolve_price (requester : Requester)
    (root : ChannelContext VariantNode) :
    Except ResolverError (Option Money) :=
  permission_required MANAGE_PRODUCTS (fun r => r.node.price)
    requester root

/-- `ProductVariant.resolve_quantity` (gated): the external
`get_available_quantity` at the request context's country. -/
def ProductVariant.resolve_quantity
    (get_available_quantity : VariantNode → CountryCode → Int)
    (ctx : RequestContext) (requester : Requester)
    (root : ChannelContext VariantNode) : Except ResolverError Int :=
  permission_required MANAGE_PRODUCTS
    (fun r => get_available_quantity r.node ctx.country) requester root

/-- `ProductVariant.resolve_quantity_allocated` (gated): the external
`get_quantity_allocated` at the request context's country. -/
def ProductVariant.resolve_quantity_allocated
    (get_quantity_allocated : VariantNode → CountryCode → Option Int)
    (ctx : RequestContext) (requester : Requester)
    (root : ChannelContext VariantNode) :
    Except ResolverError (Option Int) :=
  permission_required MANAGE_PRODUCTS
    (fun r => get_quantity_allocated r.node ctx.country) requester root

/-- `ProductVariant.resolve_quantity_ordered` (gated): the dynamically
attached `quantity_ordered` annotation when present, `None` otherwise
(`getattr(root.node, "quantity_ordered", None)`). -/
def ProductVariant.resolve_quantity_ordered (requester : Requester)
    (root : ChannelContext VariantNode) :
    Except ResolverError (Option Int) :=
  permission_required MANAGE_PRODUCTS (fun r => r.node.quantity_ordered)
    requester root

/-- A reporting period argument (`ReportingPeriod`). -/
inductive ReportingPeriod where
  | today
  | thisMonth
deriving DecidableEq, Repr

/-- `ProductVariant.resolve_revenue` (gated): translate the period into a
start date (`reporting_period_to_date`) and aggregate revenue from that
date (`calculate_revenue_for_variant`); both external. -/
def ProductVariant.resolve_revenue
    (reporting_period_to_date : ReportingPeriod → Nat)
    (calculate_revenue_for_variant : VariantNode → Nat → TaxedMoney)
    (requester : Requester) (root : ChannelContext VariantNode)
    (period : ReportingPeriod) : Except ResolverError TaxedMoney :=
  permission_required MANAGE_PRODUCTS
    (fun rp : ChannelContext VariantNode × ReportingPeriod =>
      calculate_revenue_for_variant rp.1.node
        (reporting_period_to_date rp.2))
    requester (root, period)

/-- `ProductVariant.resolve_stocks` (gated): with no country code the
variant's stock rows, otherwise the rows restricted to the country
(external manager `for_country`); both annotated with available quantity
(external manager `annotate_available_quantity`). -/
def ProductVariant.resolve_stocks
    (for_country : CountryCode → List StockRecord → List StockRecord)
    (annotate_available_quantity : List StockRecord → List StockRecord)
    (requester : Requester) (root : ChannelContext VariantNode)
    (country_code : Option CountryCode) :
    Except ResolverError (List StockRecord) :=
  permission_required MANAGE_PRODUCTS
    (fun rc : ChannelContext VariantNode × Option CountryCode =>
      match rc.2 with
      | none => annotate_available_quantity rc.1.node.stocks
      | some cc => annotate_available_quantity (for_country cc rc.1.node.stocks))
    requester (root, country_code)

/-- `ProductVariant.resolve_digital_content` (gated):
`getattr(root.node, "digital_content", None)`. -/
def ProductVariant.resolve_digital_content (requester : Requester)
    (root : ChannelContext VariantNode) :
    Except ResolverError (Option Nat) :=
  permission_required MANAGE_PRODUCTS (fun r => r.node.digital_content)
    requester root

/-- `ProductVariant.resolve_private_meta` (gated): the external
deprecated-metadata resolver on the wrapped record. -/
def ProductVariant.resolve_private_meta
    (resolve_private_meta_fn : VariantNode → List (String × String))
    (requester : Requester) (root : ChannelContext VariantNode) :
    Except ResolverError (List (String × String)) :=
  permission_required MANAGE_PRODUCTS
    (fun r => resolve_private_meta_fn r.node) requester root

/-- `Product.resolve_purchase_cost` (gated): the first component of the
external `get_product_costs_data`. -/
def Product.resolve_purchase_cost
    (get_product_costs_data : ProductRecord → Option MoneyRange × (Int × Int))
    (requester : Requester) (root : ChannelContext ProductRecord) :
    Except ResolverError (Option MoneyRange) :=
  permission_required MANAGE_PRODUCTS
    (fun r => (get_product_costs_data r.node).1) requester root

/-- `Product.resolve_margin` (gated): the margin pair from the external
`get_product_costs_data`, packed into a `Margin`. -/
def Product.resolve_margin
    (get_product_costs_data : ProductRecord → Option MoneyRange × (Int × Int))
    (requester : Requester) (root : ChannelContext ProductRecord) :
    Except ResolverError Margin :=
  permission_required MANAGE_PRODUCTS
    (fun r => Margin.mk (get_product_costs_data r.node).2.1
      (get_product_costs_data r.node).2.2) requester root

/-- `Product.resolve_channel_listing` (gated): hand back the
`ProductChannelListingByProductIdLoader` deferred for the wrapped
product's id. -/
def Product.resolve_channel_listing (requester : Requester)
    (root : ChannelContext ProductRecord) :
    Except ResolverError (LoaderRequest Nat) :=
  permission_required MANAGE_PRODUCTS (fun r => LoaderRequest.mk r.node.pk)
    requester root

/-- `Product.resolve_private_meta` (gated): the external
deprecated-metadata resolver on the wrapped record. -/
def Product.resolve_private_meta
    (resolve_private_meta_fn : ProductRecord → List (String × String))
    (requester : Requester) (root : ChannelContext ProductRecord) :
    Except ResolverError (List (String × String)) :=
  permission_required MANAGE_PRODUCTS
    (fun r => resolve_private_meta_fn r.node) requester root

/-! ## Theorems -/

/-- The authorization gate denies a requester lacking the permission. -/
theorem permission_required_denied {ρ α : Type} (perm : String)
    (resolver : ρ → α) (requester : Requester) (root : ρ)
    (h : requester.permissions.contains perm = false) :
    permission_required perm resolver requester root =
      .error (.authorizationError perm) := by
  have h' : perm ∉ requester.permissions := by simpa using h
  simp [permission_required, h']

/-- The authorization gate delegates transparently when the permission is
held. -/
theorem permission_required_granted {ρ α : Type} (perm : String)
    (resolver : ρ → α) (requester : Requester) (root : ρ)
    (h : requester.permissions.contains perm = true) :
    permission_required perm resolver requester root = .ok (resolver root) := by
  have h' : perm ∈ requester.permissions := by simpa using h
  simp [permission_required, h']

/-- C1: a requester lacking the "manage products" permission gets an
authorization error naming that permission (never null or a value) from
every gated field — margin, costPrice, price, quantity, quantityAllocated,
quantityOrdered, revenue, stocks, digitalContent, privateMeta on a
variant, and purchaseCost, channelListing on a product; a requester
holding the permission gets the wrapped resolver's result unchanged. -/
theorem c1_manage_products_gate
    (get_margin_for_variant : VariantNode → Option Int)
    (get_available_quantity : VariantNode → CountryCode → Int)
    (get_quantity_allocated : VariantNode → CountryCode → Option Int)
    (reporting_period_to_date : ReportingPeriod → Nat)
    (calculate_revenue_for_variant : VariantNode → Nat → TaxedMoney)
    (for_country : CountryCode → List StockRecord → List StockRecord)
    (annotate_available_quantity : List StockRecord → List StockRecord)
    (variant_private_meta : VariantNode → List (String × String))
    (get_product_costs_data : ProductRecord → Option MoneyRange × (Int × Int))
    (ctx : RequestContext) (requester : Requester)
    (vroot : ChannelContext VariantNode) (proot : ChannelContext ProductRecord)
    (country_code : Option CountryCode) (period : ReportingPeriod) :
    (requester.permissions.contains MANAGE_PRODUCTS = false →
      ProductVariant.resolve_margin get_margin_for_variant requester vroot =
        .error (.authorizationError MANAGE_PRODUCTS) ∧
      ProductVariant.resolve_cost_price requester vroot =
        .error (.authorizationError MANAGE_PRODUCTS) ∧
      ProductVariant.resolve_price requester vroot =
        .error (.authorizationError MANAGE_PRODUCTS) ∧
      ProductVariant.resolve_quantity get_available_quantity ctx requester
        vroot = .error (.authorizationError MANAGE_PRODUCTS) ∧
      ProductVariant.resolve_quantity_allocated get_quantity_allocated ctx
        requester vroot = .error (.authorizationError MANAGE_PRODUCTS) ∧
      ProductVariant.resolve_quantity_ordered requester vroot =
        .error (.authorizationError MANAGE_PRODUCTS) ∧
      ProductVariant.resolve_revenue reporting_period_to_date
        calculate_revenue_for_variant requester vroot period =
        .error (.authorizationError MANAGE_PRODUCTS) ∧
      ProductVariant.resolve_stocks for_country annotate_available_quantity
        requester vroot country_code =
        .error (.authorizationError MANAGE_PRODUCTS) ∧
      ProductVariant.resolve_digital_content requester vroot =
        .error (.authorizationError MANAGE_PRODUCTS) ∧
      ProductVariant.resolve_private_meta variant_private_meta requester
        vroot = .error (.authorizationError MANAGE_PRODUCTS) ∧
      Product.resolve_purchase_cost get_product_costs_data requester proot =
        .error (.authorizationError MANAGE_PRODUCTS) ∧
      Product.resolve_channel_listing requester proot =
        .error (.authorizationError MANAGE_PRODUCTS)) ∧
    (requester.permissions.contains MANAGE_PRODUCTS = true →
      ProductVariant.resolve_margin get_margin_for_variant requester vroot =
        .ok (get_margin_for_variant vroot.node) ∧
      ProductVariant.resolve_cost_price requester vroot =
        .ok vroot.node.cost_price ∧
      ProductVariant.resolve_price requester vroot = .ok vroot.node.price ∧
      ProductVariant.resolve_quantity get_available_quantity ctx requester
        vroot = .ok (get_available_quantity vroot.node ctx.country) ∧
      ProductVariant.resolve_quantity_allocated get_quantity_allocated ctx
        requester vroot = .ok (get_quantity_allocated vroot.node ctx.country) ∧
      ProductVariant.resolve_quantity_ordered requester vroot =
        .ok vroot.node.quantity_ordered ∧
      ProductVariant.resolve_revenue reporting_period_to_date
        calculate_revenue_for_variant requester vroot period =
        .ok (calculate_revenue_for_variant vroot.node
          (reporting_period_to_date period)) ∧
      ProductVariant.resolve_stocks for_country annotate_available_quantity
        requester vroot country_code =
        .ok (match country_code with
          | none => annotate_available_quantity vroot.node.stocks
          | some cc =>
            annotate_available_quantity (for_country cc vroot.node.stocks)) ∧
      ProductVariant.resolve_digital_content requester vroot =
        .ok vroot.node.digital_content ∧
      ProductVariant.resolve_private_meta variant_private_meta requester
        vroot = .ok (variant_private_meta vroot.node) ∧
      Product.resolve_purchase_cost get_product_costs_data requester proot =
        .ok (get_product_costs_data proot.node).1 ∧
      Product.resolve_channel_listing requester proot =
        .ok (LoaderRequest.mk proot.node.pk)) := by
  constructor
  · intro h
    refine ⟨?_, ?_, ?_, ?_, ?_, ?_, ?_, ?_, ?_, ?_, ?_, ?_⟩ <;>
      exact permission_required_denied _ _ _ _ h
  · intro h
    refine ⟨?_, ?_, ?_, ?_, ?_, ?_, ?_, ?_, ?_, ?_, ?_, ?_⟩ <;>
      exact permission_required_granted _ _ _ _ h

/-- Witness for C1 at a concrete requester without and with the
permission. -/
theorem c1_manage_products_gate_witness :
    ProductVariant.resolve_quantity_ordered ⟨[]⟩
      ⟨⟨1, 2, true, none, none, some 4, none, []⟩, some "web"⟩ =
      .error (.authorizationError MANAGE_PRODUCTS) ∧
    Product.resolve_channel_listing ⟨[]⟩ ⟨⟨9, none⟩, some "web"⟩ =
      .error (.authorizationError MANAGE_PRODUCTS) ∧
    ProductVariant.resolve_quantity_ordered ⟨[MANAGE_PRODUCTS]⟩
      ⟨⟨1, 2, true, none, none, some 4, none, []⟩, some "web"⟩ =
      .ok (some 4) ∧
    Product.resolve_channel_listing ⟨[MANAGE_PRODUCTS]⟩
      ⟨⟨9, none⟩, some "web"⟩ = .ok (LoaderRequest.mk 9) := by
  obtain ⟨-, -, -, -, -, hd6, -, -, -, -, -, hd12⟩ :=
    (c1_manage_products_gate (fun _ => none) (fun _ _ => 0) (fun _ _ => none)
      (fun _ => 0) (fun _ _ => ⟨⟨0, "USD"⟩, ⟨0, "USD"⟩⟩) (fun _ s => s)
      (fun s => s) (fun _ => []) (fun _ => (none, (0, 0))) ⟨"US", none, 0⟩
      ⟨[]⟩ ⟨⟨1, 2, true, none, none, some 4, none, []⟩, some "web"⟩
      ⟨⟨9, none⟩, some "web"⟩ none .today).1 (by decide)
  obtain ⟨-, -, -, -, -, hg6, -, -, -, -, -, hg12⟩ :=
    (c1_manage_products_gate (fun _ => none) (fun _ _ => 0) (fun _ _ => none)
      (fun _ => 0) (fun _ _ => ⟨⟨0, "USD"⟩, ⟨0, "USD"⟩⟩) (fun _ s => s)
      (fun s => s) (fun _ => []) (fun _ => (none, (0, 0))) ⟨"US", none, 0⟩
      ⟨[MANAGE_PRODUCTS]⟩
      ⟨⟨1, 2, true, none, none, some 4, none, []⟩, some "web"⟩
      ⟨⟨9, none⟩, some "web"⟩ none .today).2 (by decide)
  exact ⟨hd6, hd12, hg6, hg12⟩

/-- C2: a variant that does not track inventory resolves both
quantityAvailable (any country code) and stockQuantity to the configured
`MAX_CHECKOUT_LINE_QUANTITY` sentinel directly, issuing no availability
load. -/
theorem c2_untracked_inventory_sentinel (settings : Settings)
    (ctx : RequestContext) (root : ChannelContext VariantNode)
    (country_code : Option CountryCode)
    (h : root.node.track_inventory = false) :
    ProductVariant.resolve_quantity_available settings root country_code =
      .value settings.MAX_CHECKOUT_LINE_QUANTITY ∧
    ProductVariant.resolve_stock_quantity settings ctx root =
      .value settings.MAX_CHECKOUT_LINE_QUANTITY := by
  constructor <;>
    simp [ProductVariant.resolve_quantity_available,
      ProductVariant.resolve_stock_quantity, h]

/-- Witness for C2 at a concrete untracked variant. -/
theorem c2_untracked_inventory_sentinel_witness :
    ProductVariant.resolve_quantity_available ⟨50⟩
      ⟨⟨1, 2, false, none, none, none, none, [⟨5, 3⟩]⟩, some "web"⟩ none =
      .value 50 ∧
    ProductVariant.resolve_stock_quantity ⟨50⟩ ⟨"US", none, 0⟩
      ⟨⟨1, 2, false, none, none, none, none, [⟨5, 3⟩]⟩, some "web"⟩ =
      .value 50 :=
  c2_untracked_inventory_sentinel ⟨50⟩ ⟨"US", none, 0⟩
    ⟨⟨1, 2, false, none, none, none, none, [⟨5, 3⟩]⟩, some "web"⟩ none rfl

/-- C3: for a variant tracking inventory, isAvailable asks the
availability loader for exactly `(variant id, request country)` and is
true iff the loaded quantity is positive; for a variant not tracking
inventory it is `True` with no load. -/
theorem c3_is_available_tracks_quantity (ctx : RequestContext)
    (root : ChannelContext VariantNode) :
    (root.node.track_inventory = true →
      (ProductVariant.resolve_is_available ctx root).loads =
        [(root.node.pk, ctx.country)] ∧
      ∀ env : Nat × CountryCode → Int,
        ((ProductVariant.resolve_is_available ctx root).run env = true ↔
          env (root.node.pk, ctx.country) > 0)) ∧
    (root.node.track_inventory = false →
      ProductVariant.resolve_is_available ctx root = .value true) := by
  constructor
  · intro h
    constructor
    · simp [ProductVariant.resolve_is_available, h,
        AvailabilityResolution.loads]
    · intro env
      simp [ProductVariant.resolve_is_available, h,
        AvailabilityResolution.run]
  · intro h
    simp [ProductVariant.resolve_is_available, h]

/-- Witness for C3 at a concrete tracked and a concrete untracked
variant, with a concrete quantity environment. -/
theorem c3_is_available_tracks_quantity_witness :
    ((ProductVariant.resolve_is_available ⟨"US", none, 0⟩
      ⟨⟨1, 2, true, none, none, none, none, []⟩, some "web"⟩).run
        (fun _ => 3) = true ↔ (3 : Int) > 0) ∧
    ProductVariant.resolve_is_available ⟨"US", none, 0⟩
      ⟨⟨1, 2, false, none, none, none, none, []⟩, some "web"⟩ =
      .value true := by
  constructor
  · exact ((c3_is_available_tracks_quantity ⟨"US", none, 0⟩
      ⟨⟨1, 2, true, none, none, none, none, []⟩, some "web"⟩).1 rfl).2
      (fun _ => 3)
  · exact (c3_is_available_tracks_quantity ⟨"US", none, 0⟩
      ⟨⟨1, 2, false, none, none, none, none, []⟩, some "web"⟩).2 rfl

/-- C4: with the channel slug absent, both pricing resolvers return empty
and issue no load; with a (truthy) channel slug present, both hand back a
deferred that issues exactly the discounts, product/variants, channel
listing and collections loads and computes the snapshot from the loaded
environment via the pricing aggregator. -/
theorem c4_pricing_channel_dependency
    (get_variant_availability :
      VariantNode → ProductRecord → Option ProductChannelListingRecord →
      List CollectionNode → List Discount → CountryCode → Option String →
      VariantPricingInfo)
    (get_product_availability :
      ProductRecord → Option ProductChannelListingRecord → List VariantNode →
      List CollectionNode → List Discount → CountryCode → Option String →
      ProductPricingInfo)
    (ctx : RequestContext) (vroot : ChannelContext VariantNode)
    (proot : ChannelContext ProductRecord) :
    (vroot.channel_slug = none →
      ProductVariant.resolve_pricing get_variant_availability ctx vroot =
        .empty ∧
      (ProductVariant.resolve_pricing get_variant_availability ctx
        vroot).loads = []) ∧
    (proot.channel_slug = none →
      Product.resolve_pricing get_product_availability ctx proot = .empty ∧
      (Product.resolve_pricing get_product_availability ctx proot).loads =
        []) ∧
    (∀ slug, vroot.channel_slug = some slug → slug.isEmpty = false →
      ProductVariant.resolve_pricing get_variant_availability ctx vroot =
        .deferred
          [ .discounts ctx.request_time,
            .product vroot.node.product_id,
            .channelListing (vroot.node.product_id, slug),
            .collections vroot.node.product_id ]
          (fun env =>
            get_variant_availability vroot.node env.product
              env.channel_listing env.collections env.discounts ctx.country
              ctx.currency)) ∧
    (∀ slug, proot.channel_slug = some slug → slug.isEmpty = false →
      Product.resolve_pricing get_product_availability ctx proot =
        .deferred
          [ .discounts ctx.request_time,
            .channelListing (proot.node.pk, slug),
            .variants proot.node.pk,
            .collections proot.node.pk ]
          (fun env =>
            get_product_availability proot.node env.channel_listing
              env.variants env.collections env.discounts ctx.country
              ctx.currency)) := by
  refine ⟨fun h => ?_, fun h => ?_, fun slug h hs => ?_, fun slug h hs => ?_⟩
  · constructor <;>
      simp [ProductVariant.resolve_pricing, h, PricingResolution.loads]
  · constructor <;>
      simp [Product.resolve_pricing, h, PricingResolution.loads]
  · simp [ProductVariant.resolve_pricing, h, hs]
  · simp [Product.resolve_pricing, h, hs]

/-- Witness for C4 at a concrete variant and product, with and without a
channel slug. -/
theorem c4_pricing_channel_dependency_witness :
    ProductVariant.resolve_pricing
      (fun _ _ _ _ _ _ _ => ⟨none, none, none, none, none, none⟩)
      ⟨"US", none, 11⟩ ⟨⟨1, 2, true, none, none, none, none, []⟩, none⟩ =
      .empty ∧
    Product.resolve_pricing
      (fun _ _ _ _ _ _ _ => ⟨none, none, none, none, none, none⟩)
      ⟨"US", none, 11⟩ ⟨⟨9, none⟩, none⟩ = .empty ∧
    ProductVariant.resolve_pricing
      (fun _ _ _ _ _ _ _ => ⟨none, none, none, none, none, none⟩)
      ⟨"US", none, 11⟩
      ⟨⟨1, 2, true, none, none, none, none, []⟩, some "web"⟩ =
      .deferred
        [ .discounts 11, .product 2, .channelListing (2, "web"),
          .collections 2 ]
        (fun _ => ⟨none, none, none, none, none, none⟩) ∧
    Product.resolve_pricing
      (fun _ _ _ _ _ _ _ => ⟨none, none, none, none, none, none⟩)
      ⟨"US", none, 11⟩ ⟨⟨9, none⟩, some "web"⟩ =
      .deferred
        [ .discounts 11, .channelListing (9, "web"), .variants 9,
          .collections 9 ]
        (fun _ => ⟨none, none, none, none, none, none⟩) := by
  refine ⟨?_, ?_, ?_, ?_⟩
  · exact ((c4_pricing_channel_dependency
      (fun _ _ _ _ _ _ _ => ⟨none, none, none, none, none, none⟩)
      (fun _ _ _ _ _ _ _ => ⟨none, none, none, none, none, none⟩)
      ⟨"US", none, 11⟩ ⟨⟨1, 2, true, none, none, none, none, []⟩, none⟩
      ⟨⟨9, none⟩, none⟩).1 rfl).1
  · exact ((c4_pricing_channel_dependency
      (fun _ _ _ _ _ _ _ => ⟨none, none, none, none, none, none⟩)
      (fun _ _ _ _ _ _ _ => ⟨none, none, none, none, none, none⟩)
      ⟨"US", none, 11⟩ ⟨⟨1, 2, true, none, none, none, none, []⟩, none⟩
      ⟨⟨9, none⟩, none⟩).2.1 rfl).1
  · exact (c4_pricing_channel_dependency
      (fun _ _ _ _ _ _ _ => ⟨none, none, none, none, none, none⟩)
      (fun _ _ _ _ _ _ _ => ⟨none, none, none, none, none, none⟩)
      ⟨"US", none, 11⟩
      ⟨⟨1, 2, true, none, none, none, none, []⟩, some "web"⟩
      ⟨⟨9, none⟩, some "web"⟩).2.2.1 "web" rfl rfl
  · exact (c4_pricing_channel_dependency
      (fun _ _ _ _ _ _ _ => ⟨none, none, none, none, none, none⟩)
      (fun _ _ _ _ _ _ _ => ⟨none, none, none, none, none, none⟩)
      ⟨"US", none, 11⟩
      ⟨⟨1, 2, true, none, none, none, none, []⟩, some "web"⟩
      ⟨⟨9, none⟩, some "web"⟩).2.2.2 "web" rfl rfl

/-- C5: the default field resolution of a context-wrapped entity takes a
declared field override when one exists, and otherwise falls back to
field-name lookup on the wrapped record. -/
theorem c5_default_resolution_rule {V : Type}
    (overrides : List (String × (ChannelContext (RawRecord V) → V)))
    (attname : String) (default_value : V)
    (root : ChannelContext (RawRecord V)) :
    (∀ r, overrides.lookup attname = some r →
      resolveField overrides attname default_value root = r root) ∧
    (overrides.lookup attname = none →
      resolveField overrides attname default_value root =
        get_default_resolver attname default_value root.node) := by
  constructor
  · intro r h
    simp [resolveField, h]
  · intro h
    simp [resolveField, h, resolver_with_context]

/-- Witness for C5 at a concrete record, once with an override and once
without. -/
theorem c5_default_resolution_rule_witness :
    resolveField [("special", fun root => root.node.pk + 1)] "special"
      (0 : Nat) ⟨⟨7, [("level", 3)]⟩, none⟩ = 8 ∧
    resolveField ([] : List (String × (ChannelContext (RawRecord Nat) → Nat)))
      "level" 0 ⟨⟨7, [("level", 3)]⟩, none⟩ = 3 := by
  constructor
  · have h := (c5_default_resolution_rule
      [("special", fun root => root.node.pk + 1)] "special" (0 : Nat)
      ⟨⟨7, [("level", 3)]⟩, none⟩).1 (fun root => root.node.pk + 1) rfl
    simpa using h
  · have h := (c5_default_resolution_rule
      ([] : List (String × (ChannelContext (RawRecord Nat) → Nat)))
      "level" 0 ⟨⟨7, [("level", 3)]⟩, none⟩).2 rfl
    simpa [get_default_resolver] using h

/-- C6: wrapping a raw record in a channel context and resolving the id
field returns exactly the wrapped record's primary key. -/
theorem c6_resolve_id_roundtrip {V : Type} (record : RawRecord V)
    (channel_slug : Option String) :
    ChannelContextType.resolve_id ⟨record, channel_slug⟩ = record.pk :=
  rfl

/-- A key in a child subtree appears among the descendant keys of the
list of subtrees containing that child. -/
theorem mem_descendantsSelfList {child : CategoryTree}
    {cs : List CategoryTree} (h : child ∈ cs) {x : Nat}
    (hx : x ∈ child.descendantsSelf) :
    x ∈ CategoryTree.descendantsSelfList cs := by
  induction cs with
  | nil => cases h
  | cons c rest ih =>
    simp only [CategoryTree.descendantsSelfList, List.mem_append]
    rcases List.mem_cons.mp h with h1 | h2
    · subst h1
      exact Or.inl hx
    · exact Or.inr (ih h2)

/-- C7: resolving a category's products with a null channel argument
resolves the configured default channel (failing loudly when none is
configured) and returns, wrapped with the resolved channel slug, exactly
the published products of that channel whose category lies in the
category's subtree including itself; keys of any child subtree lie in
that subtree, so products of descendant categories are included. -/
theorem c7_category_products_default_channel (db : DB)
    (root : CategoryTree) :
    (∀ ch, db.default_channel = some ch →
      ∃ qs, Category.resolve_products db root none = .ok ⟨qs, ch.slug⟩ ∧
        ∀ p, p ∈ qs ↔ p ∈ publishedProducts db ch.slug ∧
          ∃ c, p.category_id = some c ∧ c ∈ root.descendantsSelf) ∧
    (db.default_channel = none →
      Category.resolve_products db root none =
        .error (.graphQLError "A default channel does not exist.")) ∧
    (∀ pk cs child, root = .node pk cs → child ∈ cs →
      ∀ c ∈ child.descendantsSelf, c ∈ root.descendantsSelf) := by
  refine ⟨fun ch h => ?_, fun h => ?_, fun pk cs child hroot hchild c hc => ?_⟩
  · refine ⟨(publishedProducts db ch.slug).filter (fun p =>
      match p.category_id with
      | some c => root.descendantsSelf.contains c
      | none => false), ?_, ?_⟩
    · simp [Category.resolve_products, get_default_channel_or_graphql_error,
        h, Except.map]
    · intro p
      simp only [List.mem_filter]
      constructor
      · rintro ⟨hp, hc⟩
        refine ⟨hp, ?_⟩
        cases hcat : p.category_id with
        | none => rw [hcat] at hc; simp at hc
        | some c =>
          rw [hcat] at hc
          exact ⟨c, rfl, by simpa using hc⟩
      · rintro ⟨hp, c, hcat, hmem⟩
        refine ⟨hp, ?_⟩
        rw [hcat]
        simpa using hmem
  · simp [Category.resolve_products, get_default_channel_or_graphql_error,
      h, Except.map]
  · subst hroot
    simp only [CategoryTree.descendantsSelf, List.mem_cons]
    exact Or.inr (mem_descendantsSelfList hchild hc)

/-- Witness for C7: a category with a descendant category holding a
published product, and a configured default channel; the product is
returned. -/
theorem c7_category_products_default_channel_witness :
    ∃ qs, Category.resolve_products
        ⟨[⟨100, some 2⟩], [⟨100, "default-channel", true⟩],
          some ⟨"default-channel"⟩⟩
        (.node 1 [.node 2 []]) none = .ok ⟨qs, "default-channel"⟩ ∧
      (⟨100, some 2⟩ : ProductRecord) ∈ qs := by
  obtain ⟨qs, heq, hmem⟩ :=
    (c7_category_products_default_channel
      ⟨[⟨100, some 2⟩], [⟨100, "default-channel", true⟩],
        some ⟨"default-channel"⟩⟩
      (.node 1 [.node 2 []])).1 ⟨"default-channel"⟩ rfl
  refine ⟨qs, heq, (hmem _).mpr ⟨?_, 2, rfl, ?_⟩⟩
  · decide
  · simp [CategoryTree.descendantsSelf, CategoryTree.descendantsSelfList]

/-- C8: resolving a product image's url with a null size returns the
stored original image URL and with a positive size returns a rendered
thumbnail URL at that size, both passed through the request's absolute
URI builder. -/
theorem c8_image_url_size
    (get_thumbnail : ImageFile → Nat → String)
    (build_absolute_uri : String → String) (root : ProductImageRecord) :
    ProductImage.resolve_url get_thumbnail build_absolute_uri root none =
      build_absolute_uri root.image.url ∧
    ∀ size, 0 < size →
      ProductImage.resolve_url get_thumbnail build_absolute_uri root
        (some size) = build_absolute_uri (get_thumbnail root.image size) := by
  constructor
  · rfl
  · intro size hs
    simp [ProductImage.resolve_url, Nat.pos_iff_ne_zero.mp hs]

/-- Witness for C8 at a concrete image, null size and size 200. -/
theorem c8_image_url_size_witness :
    ProductImage.resolve_url
      (fun img n => img.url ++ "-thumb-" ++ toString n)
      (fun u => "https://example.com" ++ u)
      ⟨1, ⟨"/media/p.jpg"⟩, "alt"⟩ none = "https://example.com/media/p.jpg" ∧
    ProductImage.resolve_url
      (fun img n => img.url ++ "-thumb-" ++ toString n)
      (fun u => "https://example.com" ++ u)
      ⟨1, ⟨"/media/p.jpg"⟩, "alt"⟩ (some 200) =
      "https://example.com/media/p.jpg-thumb-200" := by
  have h := c8_image_url_size
    (fun img n => img.url ++ "-thumb-" ++ toString n)
    (fun u => "https://example.com" ++ u) ⟨1, ⟨"/media/p.jpg"⟩, "alt"⟩
  exact ⟨h.1.trans (by decide), (h.2 200 (by decide)).trans (by decide)⟩

/-- C9: with the "manage products" permission held, quantityOrdered
resolves to null when the dynamically attached annotation is absent and
to the annotation's value unchanged when present. -/
theorem c9_quantity_ordered_optional (requester : Requester)
    (root : ChannelContext VariantNode)
    (hperm : requester.permissions.contains MANAGE_PRODUCTS = true) :
    (root.node.quantity_ordered = none →
      ProductVariant.resolve_quantity_ordered requester root = .ok none) ∧
    (∀ v, root.node.quantity_ordered = some v →
      ProductVariant.resolve_quantity_ordered requester root =
        .ok (some v)) := by
  have h : ProductVariant.resolve_quantity_ordered requester root =
      .ok root.node.quantity_ordered :=
    permission_required_granted _ _ _ _ hperm
  constructor
  · intro h0
    rw [h, h0]
  · intro v hv
    rw [h, hv]

/-- Witness for C9 at a permitted requester, with the annotation absent
and present. -/
theorem c9_quantity_ordered_optional_witness :
    ProductVariant.resolve_quantity_ordered ⟨[MANAGE_PRODUCTS]⟩
      ⟨⟨1, 2, true, none, none, none, none, []⟩, none⟩ = .ok none ∧
    ProductVariant.resolve_quantity_ordered ⟨[MANAGE_PRODUCTS]⟩
      ⟨⟨1, 2, true, none, none, some 7, none, []⟩, none⟩ = .ok (some 7) := by
  constructor
  · exact (c9_quantity_ordered_optional ⟨[MANAGE_PRODUCTS]⟩
      ⟨⟨1, 2, true, none, none, none, none, []⟩, none⟩ (by decide)).1 rfl
  · exact (c9_quantity_ordered_optional ⟨[MANAGE_PRODUCTS]⟩
      ⟨⟨1, 2, true, none, none, some 7, none, []⟩, none⟩ (by decide)).2 7 rfl

/-- C10: without a channel slug, a product's isAvailable resolves to
null; with a (truthy) slug it is true iff a channel listing row exists
for the product and that slug and the product is in stock for the request
context's country. -/
theorem c10_product_is_available
    (is_product_in_stock : ProductRecord → CountryCode → Bool) (db : DB)
    (ctx : RequestContext) (root : ChannelContext ProductRecord) :
    (root.channel_slug = none →
      Product.resolve_is_available is_product_in_stock db ctx root =
        none) ∧
    (∀ slug, root.channel_slug = some slug → slug.isEmpty = false →
      (Product.resolve_is_available is_product_in_stock db ctx root =
          some true ↔
        (∃ l ∈ db.listings, l.product_id = root.node.pk ∧
          l.channel_slug = slug) ∧
        is_product_in_stock root.node ctx.country = true)) := by
  constructor
  · intro h
    simp [Product.resolve_is_available, h]
  · intro slug h hs
    simp only [Product.resolve_is_available, h, hs, Bool.false_eq_true,
      if_false, Option.some.injEq, Bool.and_eq_true, List.any_eq_true,
      Bool.and_eq_true, beq_iff_eq]

/-- Witness for C10 at a concrete product, without a slug and with a
slug whose listing exists while the product is in stock. -/
theorem c10_product_is_available_witness :
    Product.resolve_is_available (fun _ _ => true)
      ⟨[], [⟨9, "web", true⟩], none⟩ ⟨"US", none, 0⟩ ⟨⟨9, none⟩, none⟩ =
      none ∧
    Product.resolve_is_available (fun _ _ => true)
      ⟨[], [⟨9, "web", true⟩], none⟩ ⟨"US", none, 0⟩
      ⟨⟨9, none⟩, some "web"⟩ = some true := by
  constructor
  · exact (c10_product_is_available (fun _ _ => true)
      ⟨[], [⟨9, "web", true⟩], none⟩ ⟨"US", none, 0⟩
      ⟨⟨9, none⟩, none⟩).1 rfl
  · exact ((c10_product_is_available (fun _ _ => true)
      ⟨[], [⟨9, "web", true⟩], none⟩ ⟨"US", none, 0⟩
      ⟨⟨9, none⟩, some "web"⟩).2 "web" rfl rfl).mpr
      ⟨⟨⟨9, "web", true⟩, by decide, rfl, rfl⟩, rfl⟩

end Saleor
